import Mathlib

/-
Shallow embedding of the pyresult library (src/pyresult/types.py,
src/pyresult/result.py, src/pyresult/decorators.py) and proofs about its
Result, Option and Iter types.

Modelling conventions:
  * A Python exception object is a PyExn: its class name, its str form, and
    an identity tag so that two distinct objects with equal content can be
    told apart (object identity matters for the legacy equality in
    result.py and for unwrap re-raising the original object).
  * Code that may raise returns in the Py monad (Except PyExn).
  * An Iter is modelled by the list of elements its underlying iterator
    yields, in order.
-/

namespace PyResult

/-- A Python exception object: `ty` is the class name (type(e)), `msg` is
str(e), and `uid` is the object identity, unique per allocated object. -/
structure PyExn where
  ty : String
  msg : String
  uid : Nat
deriving DecidableEq, Repr

/-- Computations that may raise a Python exception. -/
abbrev Py (α : Type) := Except PyExn α

/-- A RuntimeError raised by library code (fresh object, identity tag 0). -/
def runtimeError (msg : String) : PyExn := ⟨"RuntimeError", msg, 0⟩

/-- An AssertionError raised by a failed assert statement. -/
def assertionError (msg : String) : PyExn := ⟨"AssertionError", msg, 0⟩

/-- The StopIteration raised by next() on an exhausted iterator. -/
def stopIteration : PyExn := ⟨"StopIteration", "", 0⟩

-- Result type (types.py lines 38-380)
-- ===================================

/-- The Result sum type of types.py: Ok holds a value, Err holds an error.
The error channel is a Python exception object (E is bound to
BaseException in the source). -/
inductive Result (α : Type) where
  | Ok (value : α)
  | Err (error : PyExn)
deriving DecidableEq, Repr

/-- Embeds Ok.is_ok / Err.is_ok. -/
def Result.is_ok : Result α → Bool
  | .Ok _ => true
  | .Err _ => false

/-- Embeds Result.is_err: `return not self.is_ok()`. -/
def Result.is_err (r : Result α) : Bool := !r.is_ok

/-- Embeds unwrap: Ok.unwrap returns the value; Err.unwrap executes
`raise self._get_error()`, re-raising the stored error object itself. -/
def Result.unwrap : Result α → Py α
  | .Ok v => Except.ok v
  | .Err e => Except.error e

/-- Embeds _get_error: Err returns the stored error; Ok raises
RuntimeError("Tried to get an error from an Ok result"). -/
def Result.get_error : Result α → Py PyExn
  | .Ok _ => Except.error (runtimeError "Tried to get an error from an Ok result")
  | .Err e => Except.ok e

/-- Embeds Result.and_then (types.py lines 204-220):
`if self.is_ok(): return func(self.unwrap())` and otherwise
`return Result.Err(self._get_error())`. The argument may itself raise, so
it lives in the Py monad. -/
def Result.and_then (r : Result α) (func : α → Py (Result β)) : Py (Result β) :=
  if r.is_ok then do
    let v ← r.unwrap
    func v
  else do
    let e ← r.get_error
    pure (Result.Err e)

/-- Embeds Result.expect (types.py lines 247-265): value on Ok, otherwise
`raise RuntimeError(f"{message}: {self._get_error()}")`, where the display
form of the error is its msg field. -/
def Result.expect (r : Result α) (message : String) : Py α :=
  if r.is_ok then r.unwrap
  else do
    let e ← r.get_error
    Except.error (runtimeError (message ++ ": " ++ e.msg))

/-- Embeds the dunder eq of types.py (lines 347-348 and 375-380):
Ok compares contained values with the Python eq of the value type (the BEq
instance); Err compares `type(self._error) is type(other._error)` and
`str(self._error) == str(other._error)`, i.e. error class and message text,
ignoring object identity. Mixed variants compare unequal (isinstance). -/
def Result.beq [BEq α] : Result α → Result α → Bool
  | .Ok a, .Ok b => a == b
  | .Err e1, .Err e2 => e1.ty == e2.ty && e1.msg == e2.msg
  | _, _ => false

/-- Embeds the dunder eq of the legacy module result.py (lines 241-242 and
267-268): Ok as in types.py, but Err compares `self._error == other._error`.
BaseException does not override the eq dunder, so Python eq on two exception
objects is object identity: in the model, equality of the full PyExn record
(uids are unique per object). -/
def Result.beqLegacy [BEq α] : Result α → Result α → Bool
  | .Ok a, .Ok b => a == b
  | .Err e1, .Err e2 => e1 == e2
  | _, _ => false

-- Option type (types.py lines 386-679)
-- ====================================

/-- The Option sum type of types.py: Some holds a value, Nil is empty. -/
inductive Option (α : Type) where
  | Some (value : α)
  | Nil
deriving DecidableEq, Repr

/-- Embeds Some.is_some / Nil.is_some. -/
def Option.is_some : Option α → Bool
  | .Some _ => true
  | .Nil => false

/-- Embeds Option.is_none: `return not self.is_some()`. -/
def Option.is_none (o : Option α) : Bool := !o.is_some

/-- Embeds unwrap: Some.unwrap returns the value; Nil.unwrap executes
`raise RuntimeError("Called unwrap on a Nil Option")`. -/
def Option.unwrap : Option α → Py α
  | .Some v => Except.ok v
  | .Nil => Except.error (runtimeError "Called unwrap on a Nil Option")

/-- Embeds Option.as_result (types.py lines 609-624): folds with
Result.Ok on Some and Result.Err(error) on Nil. -/
def Option.as_result (o : Option α) (error : PyExn) : Result α :=
  match o with
  | .Some v => Result.Ok v
  | .Nil => Result.Err error

/-- Embeds Result.as_option (types.py lines 308-313): folds with
Option.Some on Ok and Option.Nil on Err, discarding the error. -/
def Result.as_option : Result α → Option α
  | .Ok v => Option.Some v
  | .Err _ => Option.Nil

-- Lift adapters (decorators.py)
-- =============================

namespace decorators

/-- Embeds decorators.as_result (decorators.py lines 23-41): the wrapper
runs the function under `try`, returns Result.Ok of a normal return, and
catches `except BaseException as e` returning Result.Err(e). Every raise in
the Py monad is a BaseException, so the catch is total. -/
def as_result (func : α → Py β) (x : α) : Result β :=
  match func x with
  | Except.ok v => Result.Ok v
  | Except.error e => Result.Err e

/-- Embeds decorators.as_option (decorators.py lines 44-61): Some of a
normal return, Nil on any raised BaseException. -/
def as_option (func : α → Py β) (x : α) : Option β :=
  match func x with
  | Except.ok v => Option.Some v
  | Except.error _ => Option.Nil

end decorators

-- Iter type (types.py lines 685-831)
-- ==================================

namespace Iter

/-- The truth test on the stored iterator object, `if self._data`.
A Python iterator object (list_iterator, map, filter, generator) defines
neither a bool dunder nor a len dunder, so bool() of it is always True,
whether or not it has elements left. -/
def iterBool (_ : List α) : Bool := true

/-- Embeds Iter.map driven with a possibly raising function: consuming the
lazy map iterator applies the function to each element in source order and
propagates the first raise. -/
def mapPy (f : α → Py β) : List α → Py (List β)
  | [] => Except.ok []
  | x :: xs => do
    let y ← f x
    let ys ← mapPy f xs
    pure (y :: ys)

/-- Embeds Iter.fold (types.py lines 745-761): left fold over the
elements, seeded with the initial value. -/
def fold (func : β → α → β) (initial : β) (l : List α) : β :=
  List.foldl func initial l

/-- Embeds Iter.fold1 (types.py lines 763-775). The source runs
`assert (result := next(iterator)), "Cannot fold an empty iterable"`:
next() on an empty source raises StopIteration; otherwise the assert tests
bool() of the first element, given here by the truthy function of the
element type, and raises AssertionError when it is falsy; otherwise the
remaining elements are folded left-to-right from the first. -/
def fold1 (func : α → α → α) (truthy : α → Bool) : List α → Py α
  | [] => Except.error stopIteration
  | x :: rest =>
    if truthy x then Except.ok (List.foldl func x rest)
    else Except.error (assertionError "Cannot fold an empty iterable")

/-- Embeds Iter.as_result (types.py lines 793-799):
`self.collect(Result.Ok) if self._data else Result.Err(ValueError("Empty Iter"))`.
The condition is the truth test on the iterator object. -/
def as_result (l : List α) : Result (List α) :=
  if iterBool l then Result.Ok l
  else Result.Err ⟨"ValueError", "Empty Iter", 0⟩

/-- Embeds Iter.as_option (types.py lines 815-817):
`self.collect(Option.Some) if self._data else Option.Nil()`. -/
def as_option (l : List α) : Option (List α) :=
  if iterBool l then Option.Some l
  else Option.Nil

/-- Embeds Iter.flatten_result (types.py lines 801-813): filter the
elements that are Ok Results, map unwrap over them, and collect with
as_result. Driving the lazy map can in principle raise, hence Py. -/
def flatten_result (l : List (Result α)) : Py (Result (List α)) := do
  let kept := List.filter Result.is_ok l
  let vals ← mapPy Result.unwrap kept
  pure (as_result vals)

/-- Embeds Iter.flatten_option (types.py lines 819-830): filter the
elements that are Some Options, map unwrap, collect with as_option. -/
def flatten_option (l : List (Option α)) : Py (Option (List α)) := do
  let kept := List.filter Option.is_some l
  let vals ← mapPy Option.unwrap kept
  pure (as_option vals)

end Iter

/-- The sequence of values sitting in the Ok elements of a list of
Results, in source order: the specification reading of flatten_result. -/
def okValues (l : List (Result α)) : List α :=
  l.filterMap fun r =>
    match r with
    | Result.Ok v => some v
    | Result.Err _ => none

/-- Concrete operation used to witness the lift adapter: integer division
of 10 by the argument, raising ZeroDivisionError on zero. -/
def checkedDiv (n : Nat) : Py Nat :=
  if n = 0 then Except.error ⟨"ZeroDivisionError", "division by zero", 0⟩
  else Except.ok (10 / n)

end PyResult

namespace PyResult

-- Supporting lemmas
-- =================

/-- Driving the lazy map of unwrap over the Ok-filtered elements never
raises and yields exactly the Ok values in source order. -/
theorem mapPy_unwrap_filter_is_ok (l : List (Result α)) :
    Iter.mapPy Result.unwrap (List.filter Result.is_ok l)
      = Except.ok (okValues l) := by
  induction l with
  | nil => rfl
  | cons r t ih =>
    cases r with
    | Ok v =>
      simp only [okValues, List.filter_cons, List.filterMap_cons, Result.is_ok,
        Iter.mapPy, Result.unwrap, if_true]
      simp only [okValues] at ih
      rw [ih]
      rfl
    | Err e =>
      simp only [okValues, List.filter_cons, List.filterMap_cons, Result.is_ok,
        Bool.false_eq_true, if_false]
      simpa [okValues] using ih

-- Claim theorems
-- ==============

/-- C1: Err(e).and_then(f) never invokes f, for any f in the Py monad,
including every function that would raise if called: the call returns
normally and the value is Err of the very same error object e,
carried unaltered into the fresh Err. -/
theorem err_and_then_short_circuits (e : PyExn) (f : α → Py (Result β)) :
    (Result.Err e : Result α).and_then f = Except.ok (Result.Err e) := rfl

/-- C2: bind is associative: for every Result r and all chained functions
f and g, driving r.and_then(f).and_then(g) equals driving
r.and_then(fun x => f(x).and_then(g)), as identical computations in the
Py monad. -/
theorem and_then_assoc (r : Result α) (f : α → Py (Result β))
    (g : β → Py (Result γ)) :
    ((r.and_then f) >>= fun s => s.and_then g)
      = r.and_then (fun x => (f x) >>= fun s => s.and_then g) := by
  cases r <;> rfl

/-- C5: the four conversion round trips: Ok(v).as_option() is Some(v);
Err(e).as_option() is Nil; Some(v).as_result(e) is Ok(v);
Nil().as_result(e) is Err(e). -/
theorem conversion_round_trips (v : α) (e : PyExn) :
    (Result.Ok v : Result α).as_option = Option.Some v
    ∧ (Result.Err e : Result α).as_option = Option.Nil
    ∧ (Option.Some v).as_result e = Result.Ok v
    ∧ (Option.Nil : Option α).as_result e = Result.Err e :=
  ⟨rfl, rfl, rfl, rfl⟩

/-- C6: Err(e).unwrap() raises the original error object e itself, not a
wrapper; Err(e).expect(msg) raises a RuntimeError whose message is msg
followed by the display form of e, so it contains both; Nil().unwrap()
raises a RuntimeError. -/
theorem failure_unwrap_expect (e : PyExn) (message : String) :
    (Result.Err e : Result α).unwrap = Except.error e
    ∧ (Result.Err e : Result α).expect message
        = Except.error (runtimeError (message ++ ": " ++ e.msg))
    ∧ (Option.Nil : Option α).unwrap
        = Except.error (runtimeError "Called unwrap on a Nil Option") :=
  ⟨rfl, rfl, rfl⟩

/-- C7: the Result lift adapter has total coverage: for every operation op
and input x, the wrapped call is Ok of the returned value when op(x)
returns normally, and Err of the raised failure when op(x) raises, with
every failure category (every PyExn) caught. -/
theorem as_result_total_coverage (op : α → Py β) (x : α) :
    (∀ v, op x = Except.ok v → decorators.as_result op x = Result.Ok v)
    ∧ (∀ e, op x = Except.error e → decorators.as_result op x = Result.Err e) := by
  constructor
  · intro v h
    simp [decorators.as_result, h]
  · intro e h
    simp [decorators.as_result, h]

/-- Witness for C7 at the concrete operation checkedDiv: 10 div 2 returns
normally and lifts to Ok 5; input 0 raises ZeroDivisionError and lifts to
Err of that exception. -/
theorem as_result_total_coverage_witness :
    decorators.as_result checkedDiv 2 = Result.Ok 5
    ∧ decorators.as_result checkedDiv 0
        = Result.Err ⟨"ZeroDivisionError", "division by zero", 0⟩ :=
  ⟨(as_result_total_coverage checkedDiv 2).1 5 rfl,
   (as_result_total_coverage checkedDiv 0).2 _ rfl⟩


/-- C3: for a source of Result elements with at least one Ok,
flatten_result keeps exactly the Ok elements, unwraps them and collects
them in source order into an Ok of a sequence; in particular the source
Ok 1, Err x, Ok 2 yields Ok of the sequence 1, 2. -/
theorem flatten_result_collects_oks (l : List (Result α)) (x : PyExn)
    (_h : l.any Result.is_ok = true) :
    Iter.flatten_result l = Except.ok (Result.Ok (okValues l))
    ∧ Iter.flatten_result [Result.Ok 1, Result.Err x, Result.Ok 2]
        = Except.ok (Result.Ok [1, 2]) := by
  constructor
  · show (Iter.mapPy Result.unwrap (List.filter Result.is_ok l)) >>= _ = _
    rw [mapPy_unwrap_filter_is_ok]
    rfl
  · rfl

/-- Witness for C3 at the source Ok 1, Err of a ValueError, Ok 2. -/
theorem flatten_result_collects_oks_witness :
    ([Result.Ok 1, Result.Err ⟨"ValueError", "boom", 7⟩,
        Result.Ok 2].any Result.is_ok = true)
    ∧ Iter.flatten_result
        [Result.Ok 1, Result.Err ⟨"ValueError", "boom", 7⟩, Result.Ok 2]
        = Except.ok (Result.Ok [1, 2]) :=
  ⟨rfl,
   (flatten_result_collects_oks
      [Result.Ok 1, Result.Err ⟨"ValueError", "boom", 7⟩, Result.Ok 2]
      ⟨"ValueError", "boom", 7⟩ rfl).2⟩

/-- C4, the code at the failing inputs: because the truth test on a Python
iterator object is always true, the Err("Empty Iter") and Nil branches of
as_result and as_option are unreachable. An empty source still collects
into Ok of the empty sequence and Some of the empty sequence, and
flatten_result of two Err elements yields Ok of the empty sequence rather
than the generic empty error the claim describes. -/
theorem iter_empty_source_still_ok :
    Iter.as_result ([] : List Nat) = Result.Ok []
    ∧ Iter.as_option ([] : List Nat) = Option.Some []
    ∧ Iter.flatten_result
        [(Result.Err ⟨"ValueError", "x", 1⟩ : Result Nat),
         Result.Err ⟨"ValueError", "y", 2⟩]
        = Except.ok (Result.Ok [])
    ∧ Iter.flatten_option [(Option.Nil : Option Nat)]
        = Except.ok (Option.Some []) :=
  ⟨rfl, rfl, rfl, rfl⟩

/-- C8, the code at the failing input: two Err results holding distinct
ValueError objects with the same class and the same message text. The
legacy equality of result.py compares the error payloads with Python eq,
which for exception objects is object identity, so it reports them
unequal; the structural equality of types.py, the repo test suite and the
claim report them equal. -/
theorem legacy_err_eq_is_identity_based :
    Result.beqLegacy (Result.Err ⟨"ValueError", "x", 1⟩ : Result Nat)
        (Result.Err ⟨"ValueError", "x", 2⟩) = false
    ∧ Result.beq (Result.Err ⟨"ValueError", "x", 1⟩ : Result Nat)
        (Result.Err ⟨"ValueError", "x", 2⟩) = true := by
  constructor <;> decide

/-- C9, the code at the failing input: fold1 with addition over the
non-empty source 0, 1 raises AssertionError("Cannot fold an empty
iterable") because the assert tests the truth of the first element 0,
although seeding from the first element and folding the rest is well
defined and would give 1; on an empty source it raises StopIteration. -/
theorem fold1_asserts_on_falsy_first :
    Iter.fold1 (fun a b : Nat => a + b) (fun n => n != 0) [0, 1]
      = Except.error (assertionError "Cannot fold an empty iterable")
    ∧ List.foldl (fun a b : Nat => a + b) 0 [1] = 1
    ∧ Iter.fold1 (fun a b : Nat => a + b) (fun n => n != 0) []
      = Except.error stopIteration := by
  exact ⟨rfl, rfl, rfl⟩

/-- C10: for every non-empty source whose first element is falsy under the
truth test of the element type, fold1 raises
AssertionError("Cannot fold an empty iterable") even though the fold is
well defined, because the assert tests the first element for truthiness
rather than for presence. -/
theorem fold1_requires_truthy_first (func : α → α → α) (truthy : α → Bool)
    (x : α) (rest : List α) (h : truthy x = false) :
    Iter.fold1 func truthy (x :: rest)
      = Except.error (assertionError "Cannot fold an empty iterable") := by
  simp [Iter.fold1, h]

/-- Witness for C10 at the non-empty source 0, 5 with addition, whose
first element 0 is falsy in Python. -/
theorem fold1_requires_truthy_first_witness :
    ((fun n : Nat => n != 0) 0 = false)
    ∧ Iter.fold1 (fun a b : Nat => a + b) (fun n => n != 0) (0 :: [5])
        = Except.error (assertionError "Cannot fold an empty iterable") :=
  ⟨rfl,
   fold1_requires_truthy_first (fun a b : Nat => a + b) (fun n => n != 0)
     0 [5] rfl⟩

end PyResult
